import Mathlib

/-!
Verification of the RAG query pipeline in wiki_app.py.

The pipeline function `retrieve_and_generate(query, _client, num_chunks)` performs
one hybrid search against the WikiChunk collection, builds a context string from the
retrieved chunks, issues one grouped generation request via `generate.near_text`,
and returns a dictionary with the generated answer and one source entry per
retrieved chunk.  The backend (Weaviate client) is modelled as a record of two
fallible functions, and the embedding returns the list of backend calls issued
alongside the result, so that claims about which requests are made can be stated.
-/

namespace WikiApp

/-- One retrieved chunk as the backend returns it: the `title`, `chunk` and
`chunk_number` properties requested at wiki_app.py line 38, together with the
`distance` metadata requested at line 37.  The relevance distance is carried as an
integer-valued opaque score: the pipeline only passes it through, never computes
with it. -/
structure ChunkRecord where
  title : String
  chunk : String
  chunk_number : Nat
  distance : Int
  deriving Repr, DecidableEq

/-- One entry of the `sources` list of the returned dictionary
(wiki_app.py lines 55-62). -/
structure SourceEntry where
  title : String
  chunk_number : Nat
  distance : Int
  deriving Repr, DecidableEq

/-- The dictionary returned by `retrieve_and_generate`
(wiki_app.py lines 53-63). -/
structure AnswerResult where
  answer : String
  sources : List SourceEntry
  deriving Repr, DecidableEq

/-- The response of the `generate.near_text` backend call.  `generated` is the
generated text (read at wiki_app.py line 54).  `groundedChunks` is modelled from
the spec: the generation request is a second backend call performing its own
near-text retrieval, and the spec (design notes) records that this second call
"is not guaranteed to use the exact same chunk set as the displayed sources";
`groundedChunks` is the chunk set that call actually conditioned the generation
on, chosen by the backend. -/
structure GenResponse where
  generated : String
  groundedChunks : List ChunkRecord
  deriving Repr, DecidableEq

/-- Backend failures (network, auth, malformed schema) are carried as messages. -/
abbrev BackendError := String

/-- The external search/generation backend behind the WikiChunk collection:
`hybridSearch query limit` models `wiki_chunks.query.hybrid(query=..., limit=...)`
and `nearTextGenerate query groupedTask` models
`wiki_chunks.generate.near_text(query=..., grouped_task=...)`.  Either call may
fail. -/
structure Backend where
  hybridSearch : String → Nat → Except BackendError (List ChunkRecord)
  nearTextGenerate : String → String → Except BackendError GenResponse

/-- A backend request issued by the pipeline, recorded in order. -/
inductive BackendCall where
  | hybrid (query : String) (limit : Nat)
  | generate (query : String) (groupedTask : String)
  deriving Repr, DecidableEq

/-- Whether a recorded backend call is a generation request. -/
def isGenerateCall : BackendCall → Bool
  | BackendCall.generate _ _ => true
  | BackendCall.hybrid _ _ => false

/-- The per-chunk label of the context block, from the f-string at
wiki_app.py line 43. -/
def chunkLabel (obj : ChunkRecord) : String :=
  "From \x27" ++ obj.title ++ "\x27 (chunk " ++ toString obj.chunk_number ++ "):\n" ++ obj.chunk

/-- The context string built at wiki_app.py lines 42-45: the labelled chunks
joined with a blank-line separator. -/
def buildContext (results : List ChunkRecord) : String :=
  String.intercalate "\n\n" (results.map chunkLabel)

/-- The fixed grounding directive of wiki_app.py line 50; the `grouped_task`
sent to the backend is this constant concatenated with the question text. -/
def groupedTaskDirective : String :=
  "Please answer the following question based on the context. If the answer cannot be found in the context, say so clearly. Always cite the specific parts of the context you used.\n\nQuestion: "

/-- The source entry derived from one retrieved chunk
(wiki_app.py lines 56-60). -/
def sourceOf (obj : ChunkRecord) : SourceEntry :=
  ⟨obj.title, obj.chunk_number, obj.distance⟩

/-- Embedding of `retrieve_and_generate` (wiki_app.py lines 16-63): one hybrid
search, the context string built from its results, one `generate.near_text`
request, and the returned dictionary.  The first component records the backend
calls issued, in order; a failing backend call aborts the pipeline and the
failure is returned. -/
def retrieve_and_generate (b : Backend) (query : String) (num_chunks : Nat) :
    List BackendCall × Except BackendError AnswerResult :=
  match b.hybridSearch query num_chunks with
  | Except.error e => ([BackendCall.hybrid query num_chunks], Except.error e)
  | Except.ok results =>
    let context := buildContext results
    match b.nearTextGenerate query (groupedTaskDirective ++ query) with
    | Except.error e =>
      ([BackendCall.hybrid query num_chunks,
        BackendCall.generate query (groupedTaskDirective ++ query)], Except.error e)
    | Except.ok gen =>
      ([BackendCall.hybrid query num_chunks,
        BackendCall.generate query (groupedTaskDirective ++ query)],
       Except.ok ⟨gen.generated, results.map sourceOf⟩)

/-- Variant of `retrieve_and_generate` with the context construction removed:
identical except that the `context` string of wiki_app.py lines 42-45 is never
built.  Used to state that the context string is dead: it is neither passed to
the generation call nor included in the returned value. -/
def retrieve_and_generate_noContext (b : Backend) (query : String) (num_chunks : Nat) :
    List BackendCall × Except BackendError AnswerResult :=
  match b.hybridSearch query num_chunks with
  | Except.error e => ([BackendCall.hybrid query num_chunks], Except.error e)
  | Except.ok results =>
    match b.nearTextGenerate query (groupedTaskDirective ++ query) with
    | Except.error e =>
      ([BackendCall.hybrid query num_chunks,
        BackendCall.generate query (groupedTaskDirective ++ query)], Except.error e)
    | Except.ok gen =>
      ([BackendCall.hybrid query num_chunks,
        BackendCall.generate query (groupedTaskDirective ++ query)],
       Except.ok ⟨gen.generated, results.map sourceOf⟩)

/-- Python truthiness of the query string at the guard
`if st.button("Get Answer") and query:` (wiki_app.py line 80): a string is
truthy iff it is non-empty.  No trimming is performed. -/
def queryTruthy (query : String) : Bool :=
  query ≠ ""

/-- The submit path of the app with the button pressed (wiki_app.py lines
80-84): if the query string is truthy the pipeline runs, otherwise nothing
happens — no backend call is issued and no result or error is surfaced
(modelled by `none`). -/
def app_submit (b : Backend) (query : String) (num_chunks : Nat) :
    List BackendCall × Option (Except BackendError AnswerResult) :=
  if queryTruthy query then
    ((retrieve_and_generate b query num_chunks).1,
     some (retrieve_and_generate b query num_chunks).2)
  else
    ([], none)

/-- Modelled from the spec: the chunk set the generation request actually
conditioned on.  The code issues `generate.near_text` as a second backend call;
per the spec (design notes) that call performs its own backend-side retrieval
whose chunk set is not guaranteed to equal the hybrid-search results.  This
returns that grounding set for the generation request the pipeline issues, when
both backend calls succeed. -/
def generationGrounding (b : Backend) (query : String) (num_chunks : Nat) :
    Option (List ChunkRecord) :=
  match b.hybridSearch query num_chunks with
  | Except.error _ => none
  | Except.ok _ =>
    match b.nearTextGenerate query (groupedTaskDirective ++ query) with
    | Except.error _ => none
    | Except.ok gen => some gen.groundedChunks

/-- Spec-side join: strings each preceded by the separator. -/
def sepJoin (sep : String) : List String → String
  | [] => ""
  | a :: as => sep ++ a ++ sepJoin sep as

/-- Spec-side label head: the label of the form
`From (open quote) title (close quote) (chunk n):` that the spec says precedes
each chunk text. -/
def labelHead (c : ChunkRecord) : String :=
  "From \x27" ++ c.title ++ "\x27 (chunk " ++ toString c.chunk_number ++ "):"

/-- Spec-side context block, following the spec words: one label per chunk
followed by a newline and the chunk text, consecutive records separated by a
blank line. -/
def contextSpec : List ChunkRecord → String
  | [] => ""
  | [c] => labelHead c ++ "\n" ++ c.chunk
  | c :: c2 :: rest => labelHead c ++ "\n" ++ c.chunk ++ "\n\n" ++ contextSpec (c2 :: rest)

/-- A deterministic backend stub: the hybrid search always returns `chunks` and
the generation call always returns `generatedText` grounded on `grounded`. -/
def fixedStub (chunks : List ChunkRecord) (generatedText : String)
    (grounded : List ChunkRecord) : Backend :=
  ⟨fun _ _ => Except.ok chunks, fun _ _ => Except.ok ⟨generatedText, grounded⟩⟩

/-- First chunk of the example scenario of the spec. -/
def electionChunk1 : ChunkRecord :=
  ⟨"2024 US Election", "held November 5, 2024", 3, 12⟩

/-- Second chunk of the example scenario of the spec. -/
def electionChunk2 : ChunkRecord :=
  ⟨"Election Day", "federal election day", 1, 30⟩

/-- The example chunk list. -/
def exampleChunks : List ChunkRecord :=
  [electionChunk1, electionChunk2]

/-- The example generated answer. -/
def exampleAnswer : String :=
  "The election is held on November 5, 2024."

/-- The deterministic stub used by the concrete witnesses. -/
def exampleStub : Backend :=
  fixedStub exampleChunks exampleAnswer exampleChunks

/-- A backend whose near-text generation grounds on a chunk set different from
the hybrid-search results. -/
def mismatchStub : Backend :=
  ⟨fun _ _ => Except.ok [electionChunk1],
   fun _ _ => Except.ok ⟨exampleAnswer, [electionChunk2]⟩⟩

/-- A backend whose hybrid search fails. -/
def failingRetrievalStub : Backend :=
  ⟨fun _ _ => Except.error "hybrid search failed",
   fun _ _ => Except.ok ⟨"should never be produced", []⟩⟩

/-- A backend whose store holds no matching chunks. -/
def emptyStoreStub : Backend :=
  ⟨fun _ _ => Except.ok [],
   fun _ _ => Except.ok ⟨"The information was not found in the context.", []⟩⟩

/-- A backend extensionally equal to `exampleStub` on every issued request but
built from a different program. -/
def exampleStubAlt : Backend :=
  ⟨fun _ m => if m = 0 then Except.ok exampleChunks else Except.ok exampleChunks,
   fun _ _ => Except.ok ⟨exampleAnswer, exampleChunks⟩⟩

theorem intercalate_go_eq (sep : String) :
    ∀ (l : List String) (acc : String),
      String.intercalate.go acc sep l = acc ++ sepJoin sep l
  | [], acc => by
    simp [String.intercalate.go, sepJoin]
  | a :: as, acc => by
    rw [show String.intercalate.go acc sep (a :: as) =
          String.intercalate.go (acc ++ sep ++ a) sep as from rfl,
        intercalate_go_eq sep as (acc ++ sep ++ a)]
    simp [sepJoin, String.append_assoc]

theorem buildContext_cons (c : ChunkRecord) (rest : List ChunkRecord) :
    buildContext (c :: rest) = chunkLabel c ++ sepJoin "\n\n" (rest.map chunkLabel) := by
  rw [show buildContext (c :: rest) =
        String.intercalate.go (chunkLabel c) "\n\n" (rest.map chunkLabel) from rfl,
      intercalate_go_eq]

theorem chunkLabel_eq_spec (c : ChunkRecord) :
    chunkLabel c = labelHead c ++ "\n" ++ c.chunk := by
  rw [chunkLabel, labelHead,
      show ("):\n" : String) = "):" ++ "\n" from rfl]
  simp [String.append_assoc]

/-- C1: for every chunk sequence returned by the retrieval step, the sources
list of the result has exactly one entry per returned chunk, in the same
order — it is the literal map of `sourceOf` over the retrieved chunks, with no
re-sorting, filtering or deduplication, and its length equals the number of
chunks the backend returned. -/
theorem sources_map_of_chunks (b : Backend) (q : String) (n : Nat)
    (results : List ChunkRecord) (gen : GenResponse)
    (hh : b.hybridSearch q n = Except.ok results)
    (hg : b.nearTextGenerate q (groupedTaskDirective ++ q) = Except.ok gen) :
    (retrieve_and_generate b q n).2 =
      Except.ok ⟨gen.generated, results.map sourceOf⟩ ∧
    (results.map sourceOf).length = results.length := by
  constructor
  · simp [retrieve_and_generate, hh, hg]
  · simp

/-- Witness for C1 on the example scenario of the spec. -/
theorem sources_map_of_chunks_witness :
    (retrieve_and_generate exampleStub "When is the election?" 2).2 =
      Except.ok ⟨exampleAnswer, exampleChunks.map sourceOf⟩ ∧
    (exampleChunks.map sourceOf).length = exampleChunks.length :=
  sources_map_of_chunks exampleStub "When is the election?" 2 exampleChunks
    ⟨exampleAnswer, exampleChunks⟩ rfl rfl

/-- C2 counterexample: a backend on which the pipeline succeeds, the sources
come from the hybrid-search chunk, yet the generation request was grounded on a
different chunk set — so the generated text is not grounded in exactly the
chunks produced by the hybrid-search call that populates sources. -/
theorem generation_grounding_mismatch :
    (retrieve_and_generate mismatchStub "q" 3).2 =
      Except.ok ⟨exampleAnswer, [sourceOf electionChunk1]⟩ ∧
    generationGrounding mismatchStub "q" 3 = some [electionChunk2] ∧
    [electionChunk2] ≠ [electionChunk1] := by
  refine ⟨rfl, rfl, by decide⟩

/-- C2 (amended): when retrieval succeeds, exactly one generation request is
issued — the single `generate.near_text` call carrying the grouped task — and
the grounding set of that request is whatever the backend near-text call
returns, not constrained to the hybrid-search chunks. -/
theorem one_generation_request (b : Backend) (q : String) (n : Nat)
    (results : List ChunkRecord)
    (hh : b.hybridSearch q n = Except.ok results) :
    (retrieve_and_generate b q n).1.filter isGenerateCall =
      [BackendCall.generate q (groupedTaskDirective ++ q)] ∧
    ∀ gen, b.nearTextGenerate q (groupedTaskDirective ++ q) = Except.ok gen →
      generationGrounding b q n = some gen.groundedChunks := by
  cases hg : b.nearTextGenerate q (groupedTaskDirective ++ q) with
  | error e =>
    refine ⟨by simp [retrieve_and_generate, hh, hg, isGenerateCall], ?_⟩
    intro gen hgen
    exact absurd hgen (by simp)
  | ok gen =>
    refine ⟨by simp [retrieve_and_generate, hh, hg, isGenerateCall], ?_⟩
    intro gen2 hgen
    cases hgen
    simp [generationGrounding, hh, hg]

/-- Witness for C2 (amended) on the deterministic example stub. -/
theorem one_generation_request_witness :
    (retrieve_and_generate exampleStub "q" 2).1.filter isGenerateCall =
      [BackendCall.generate "q" (groupedTaskDirective ++ "q")] ∧
    ∀ gen, exampleStub.nearTextGenerate "q" (groupedTaskDirective ++ "q") = Except.ok gen →
      generationGrounding exampleStub "q" 2 = some gen.groundedChunks :=
  one_generation_request exampleStub "q" 2 exampleChunks rfl

/-- C3: for chunk limits in the valid range, given the backend contract that a
hybrid query returns at most the requested number of records, every successful
result has at most that many sources, and the hybrid search is issued with
exactly that limit. -/
theorem sources_length_le_limit (b : Backend) (q : String) (n : Nat)
    (hn1 : 1 ≤ n) (hn5 : n ≤ 5)
    (hb : ∀ res, b.hybridSearch q n = Except.ok res → res.length ≤ n)
    (r : AnswerResult) (hr : (retrieve_and_generate b q n).2 = Except.ok r) :
    r.sources.length ≤ n ∧
    (retrieve_and_generate b q n).1.head? = some (BackendCall.hybrid q n) := by
  cases hh : b.hybridSearch q n with
  | error e =>
    rw [show (retrieve_and_generate b q n).2 = Except.error e by
          simp [retrieve_and_generate, hh]] at hr
    exact absurd hr (by simp)
  | ok results =>
    cases hg : b.nearTextGenerate q (groupedTaskDirective ++ q) with
    | error e =>
      rw [show (retrieve_and_generate b q n).2 = Except.error e by
            simp [retrieve_and_generate, hh, hg]] at hr
      exact absurd hr (by simp)
    | ok gen =>
      rw [show (retrieve_and_generate b q n).2 =
            Except.ok ⟨gen.generated, results.map sourceOf⟩ by
            simp [retrieve_and_generate, hh, hg]] at hr
      cases hr
      constructor
      · simpa using hb results hh
      · simp [retrieve_and_generate, hh, hg]

/-- Witness for C3 at chunk limit 2 on the example stub. -/
theorem sources_length_le_limit_witness :
    ((⟨exampleAnswer, exampleChunks.map sourceOf⟩ : AnswerResult).sources.length ≤ 2 ∧
     (retrieve_and_generate exampleStub "q" 2).1.head? = some (BackendCall.hybrid "q" 2)) :=
  sources_length_le_limit exampleStub "q" 2 (by decide) (by decide)
    (by
      intro res h
      have hres : exampleChunks = res := by
        simpa [exampleStub, fixedStub] using h
      rw [← hres]
      decide)
    ⟨exampleAnswer, exampleChunks.map sourceOf⟩ rfl

/-- C4: if the hybrid search fails, the pipeline returns exactly that failure,
the trace holds the single hybrid request (no retry) and no generation request
is ever issued. -/
theorem retrieval_failure_propagates (b : Backend) (q : String) (n : Nat)
    (e : BackendError)
    (hh : b.hybridSearch q n = Except.error e) :
    retrieve_and_generate b q n = ([BackendCall.hybrid q n], Except.error e) := by
  simp [retrieve_and_generate, hh]

/-- Witness for C4 on a backend whose retrieval fails. -/
theorem retrieval_failure_propagates_witness :
    retrieve_and_generate failingRetrievalStub "q" 3 =
      ([BackendCall.hybrid "q" 3], Except.error "hybrid search failed") :=
  retrieval_failure_propagates failingRetrievalStub "q" 3 "hybrid search failed" rfl

/-- C5: if the backend returns zero chunks and both backend calls succeed, the
pipeline does not fail: it returns the generated text with an empty sources
list, and the context built over zero chunks is the empty string. -/
theorem empty_retrieval_ok (b : Backend) (q : String) (n : Nat) (gen : GenResponse)
    (hh : b.hybridSearch q n = Except.ok [])
    (hg : b.nearTextGenerate q (groupedTaskDirective ++ q) = Except.ok gen) :
    (retrieve_and_generate b q n).2 = Except.ok ⟨gen.generated, []⟩ ∧
    buildContext [] = "" := by
  constructor
  · simp [retrieve_and_generate, hh, hg]
  · rfl

/-- Witness for C5 on a backend whose store holds no matching chunks. -/
theorem empty_retrieval_ok_witness :
    (retrieve_and_generate emptyStoreStub "q" 3).2 =
      Except.ok ⟨"The information was not found in the context.", []⟩ ∧
    buildContext [] = "" :=
  empty_retrieval_ok emptyStoreStub "q" 3
    ⟨"The information was not found in the context.", []⟩ rfl rfl

/-- C6 counterexample: a whitespace-only question (a single space, all of whose
characters are whitespace) passes the truthiness guard, and both the retrieval
and the generation request are issued for it — the claim that no backend
request is made for whitespace-only queries is false. -/
theorem whitespace_query_reaches_backend :
    (" ").data.all Char.isWhitespace = true ∧
    (app_submit exampleStub " " 3).1 =
      [BackendCall.hybrid " " 3,
       BackendCall.generate " " (groupedTaskDirective ++ " ")] := by
  refine ⟨by decide, rfl⟩

/-- C6 (amended): only the exactly-empty question is rejected — the button
guard skips the pipeline, so no backend call is issued for it — but no failure
of any kind is surfaced (the app silently does nothing); whitespace-only
questions are not rejected and reach the backend. -/
theorem empty_query_no_backend_calls (b : Backend) (n : Nat) :
    app_submit b "" n = ([], none) := by
  simp [app_submit, queryTruthy]

/-- C7: the context block equals, for every chunk list, the spec-side format —
one label per chunk followed by a newline and the chunk text, consecutive
records separated by a blank line, in retrieval order. -/
theorem context_matches_spec_format (results : List ChunkRecord) :
    buildContext results = contextSpec results := by
  induction results with
  | nil => rfl
  | cons c rest ih =>
    cases rest with
    | nil =>
      rw [buildContext_cons, chunkLabel_eq_spec]
      simp [sepJoin, contextSpec]
    | cons c2 rest2 =>
      rw [buildContext_cons, chunkLabel_eq_spec]
      rw [show List.map chunkLabel (c2 :: rest2) = chunkLabel c2 :: rest2.map chunkLabel
            from rfl,
          show sepJoin "\n\n" (chunkLabel c2 :: rest2.map chunkLabel) =
            "\n\n" ++ chunkLabel c2 ++ sepJoin "\n\n" (rest2.map chunkLabel) from rfl]
      rw [show contextSpec (c :: c2 :: rest2) =
            labelHead c ++ "\n" ++ c.chunk ++ "\n\n" ++ contextSpec (c2 :: rest2) from rfl]
      rw [← ih, buildContext_cons, chunkLabel_eq_spec]
      simp [String.append_assoc]

/-- C8: the instruction sent with the generation request is exactly the fixed
grounding directive concatenated with the literal question text, and the answer
field is the generated text verbatim. -/
theorem instruction_and_answer_verbatim (b : Backend) (q : String) (n : Nat)
    (results : List ChunkRecord) (gen : GenResponse)
    (hh : b.hybridSearch q n = Except.ok results)
    (hg : b.nearTextGenerate q (groupedTaskDirective ++ q) = Except.ok gen) :
    (retrieve_and_generate b q n).1 =
      [BackendCall.hybrid q n, BackendCall.generate q (groupedTaskDirective ++ q)] ∧
    (retrieve_and_generate b q n).2 =
      Except.ok ⟨gen.generated, results.map sourceOf⟩ := by
  constructor
  · simp [retrieve_and_generate, hh, hg]
  · simp [retrieve_and_generate, hh, hg]

/-- Witness for C8 on the example stub. -/
theorem instruction_and_answer_verbatim_witness :
    (retrieve_and_generate exampleStub "Who won?" 2).1 =
      [BackendCall.hybrid "Who won?" 2,
       BackendCall.generate "Who won?" (groupedTaskDirective ++ "Who won?")] ∧
    (retrieve_and_generate exampleStub "Who won?" 2).2 =
      Except.ok ⟨exampleAnswer, exampleChunks.map sourceOf⟩ :=
  instruction_and_answer_verbatim exampleStub "Who won?" 2 exampleChunks
    ⟨exampleAnswer, exampleChunks⟩ rfl rfl

/-- C9: against two backends that answer the issued requests identically (in
particular, against one deterministic stub queried twice), two calls of the
pipeline with the same question and chunk limit return identical results —
identical answer text, sources and call trace. -/
theorem deterministic_backend_same_result (b1 b2 : Backend) (q : String) (n : Nat)
    (h1 : b1.hybridSearch q n = b2.hybridSearch q n)
    (h2 : ∀ t, b1.nearTextGenerate q t = b2.nearTextGenerate q t) :
    retrieve_and_generate b1 q n = retrieve_and_generate b2 q n := by
  cases hh : b2.hybridSearch q n with
  | error e =>
    simp [retrieve_and_generate, h1, hh]
  | ok results =>
    cases hg : b2.nearTextGenerate q (groupedTaskDirective ++ q) with
    | error e => simp [retrieve_and_generate, h1, h2, hh, hg]
    | ok gen => simp [retrieve_and_generate, h1, h2, hh, hg]

/-- Witness for C9: two extensionally equal deterministic stubs produce the
same result. -/
theorem deterministic_backend_same_result_witness :
    retrieve_and_generate exampleStub "q" 2 = retrieve_and_generate exampleStubAlt "q" 2 :=
  deterministic_backend_same_result exampleStub exampleStubAlt "q" 2 rfl (fun _ => rfl)

/-- C10: the context string is dead code — the pipeline with the context
construction removed returns the same trace and result for every backend,
question and chunk limit; the generation call depends only on the question
text. -/
theorem context_elimination_refinement (b : Backend) (q : String) (n : Nat) :
    retrieve_and_generate b q n = retrieve_and_generate_noContext b q n := rfl

end WikiApp
